import Mathlib

/-!
Shallow embedding of the risk-decision aggregation engine of the
lipaworld-orca service.

Sources embedded:
- `src/routes/pre.ts` (src/unnamed/part_003, latest revision; an earlier
  revision without the USD rule is src/unnamed/part_004):
  `performInternalChecks`, `combineRiskAssessments`,
  `checkTransactionLimits`, and the `POST /transaction/check` handler.
- `src/services/orcaService.ts`: `checkTransaction` (the provider-response
  normalizer, with its catch-block fallback) and `determineRiskLevel`.
- `src/config/config.ts` (src/unnamed/part_000): the `limits` object with
  its default values.

Conventions: JavaScript numbers that only ever hold integral amounts,
scores and timestamps are modelled as `Int`; transaction counts as `Nat`.
Fields that may be `undefined`/`null` are `Option`; the JavaScript
falsy test on an optional string (`undefined`, `null`, the empty string) is
`jsFalsyStr`.  Nondeterministic effects (`Date.now()`,
`Math.random().toString(36).substr(2, 9)`) are threaded as explicit
`now`/`rand` parameters.  The provider network call is modelled by a
`ProviderOutcome` argument: `ok raw` for a parsed response body, `failure`
for a transport error, timeout, or unparseable body (all of which land in
the same `catch` block of `checkTransaction`).
-/

/-- The canonical decision enumeration `ALLOW | REVIEW | BLOCK`. -/
inductive Decision
  | ALLOW
  | REVIEW
  | BLOCK
deriving DecidableEq, Repr

/-- The risk-level enumeration `LOW | MEDIUM | HIGH`. -/
inductive RiskLevel
  | LOW
  | MEDIUM
  | HIGH
deriving DecidableEq, Repr

/-- The status strings `SUCCESS | ERROR` used on verdict objects. -/
inductive RespStatus
  | SUCCESS
  | ERROR
deriving DecidableEq, Repr

open Decision RiskLevel RespStatus

/-- `actions.indexOf(d)` for the array `[ALLOW, REVIEW, BLOCK]`
in `combineRiskAssessments` (pre.ts). -/
def Decision.idx : Decision → Nat
  | ALLOW => 0
  | REVIEW => 1
  | BLOCK => 2

/-- `actions[i]` for the same array: indexing the decision list.  Indices
other than 0, 1, 2 never arise from `Decision.idx`. -/
def decisionOfIdx : Nat → Decision
  | 0 => ALLOW
  | 1 => REVIEW
  | _ => BLOCK

/-- The `config.limits` object of src/config/config.ts. -/
structure Limits where
  dailyTransactionLimit : Int
  singleTransactionLimit : Int
  hourlyTransactionCount : Nat
deriving DecidableEq, Repr

/-- The default values of `config.limits` (config.ts): 100000, 50000, 10. -/
def defaultLimits : Limits :=
  { dailyTransactionLimit := 100000
    singleTransactionLimit := 50000
    hourlyTransactionCount := 10 }

/-- The fields of the `OrcaTransaction` request body that the risk logic
reads: `transactionId`, `userId`, `amount` (validation and rules),
`provider` and `currencyCode` (rules).  `provider` and `currencyCode`
are kept as raw strings because `req.body` is not schema-validated
beyond the three required fields. -/
structure OrcaTransaction where
  transactionId : String
  userId : String
  amount : Int
  currencyCode : String
  provider : String
deriving DecidableEq, Repr

/-- The object literal returned by `performInternalChecks` (pre.ts). -/
structure InternalCheck where
  status : RespStatus
  decision : Decision
  riskScore : Int
  riskLevel : RiskLevel
  reasons : List String
  checkId : String
  timestamp : Int
deriving DecidableEq, Repr

/-- `performInternalChecks` (pre.ts, part_003 revision): a mutable
`decision` variable starts at ALLOW; each of the three `if` blocks
pushes a reason and assigns `decision`.  The assignments are sequenced
exactly as in the source: a later assignment overwrites an earlier one. -/
def performInternalChecks (limits : Limits) (transaction : OrcaTransaction)
    (now : Int) (rand : String) : InternalCheck :=
  let reasons0 : List String := []
  let decision0 : Decision := ALLOW
  -- Amount checks
  let reasons1 :=
    if transaction.amount > limits.singleTransactionLimit then
      reasons0 ++ ["Amount exceeds single transaction limit"] else reasons0
  let decision1 :=
    if transaction.amount > limits.singleTransactionLimit then BLOCK
    else decision0
  -- Provider-specific checks
  let reasons2 :=
    if transaction.provider = "voucher" ∧ transaction.amount > 10000 then
      reasons1 ++ ["High-value voucher purchase requires review"] else reasons1
  let decision2 :=
    if transaction.provider = "voucher" ∧ transaction.amount > 10000 then
      REVIEW
    else decision1
  -- Currency-specific checks
  let reasons3 :=
    if transaction.currencyCode = "USD" ∧ transaction.amount > 2000 then
      reasons2 ++ ["High USD transaction requires review"] else reasons2
  let decision3 :=
    if transaction.currencyCode = "USD" ∧ transaction.amount > 2000 then
      REVIEW
    else decision2
  { status := SUCCESS
    decision := decision3
    riskScore :=
      if decision3 = BLOCK then 100 else if decision3 = REVIEW then 75 else 25
    riskLevel :=
      if decision3 = BLOCK then HIGH else if decision3 = REVIEW then MEDIUM
      else LOW
    reasons := reasons3
    checkId := "internal_" ++ toString now ++ "_" ++ rand
    timestamp := now }

/-- JavaScript truthiness test on an optional string field: `undefined`,
`null` and the empty string are falsy; every other string is truthy. -/
def jsFalsyStr : Option String → Bool
  | none => true
  | some s => s == ""

/-- `value || dflt` on an optional JavaScript number: `undefined`, `null`
and `0` fall through to the default. -/
def jsOrInt : Option Int → Int → Int
  | none, dflt => dflt
  | some v, dflt => if v == 0 then dflt else v

/-- One entry of the provider `triggered` array in `checkTransaction`
(orcaService.ts): either a plain string or a structured object carrying
optional `description` and `name` fields. -/
inductive TriggeredRule
  | plain (rule : String)
  | structured (description : Option String) (nm : Option String)
deriving DecidableEq, Repr

/-- The reason extractor of `checkTransaction` (orcaService.ts line 195):
typeof rule is string ? rule : rule.description OR rule.name OR
the literal Risk rule triggered. -/
def extractReason : TriggeredRule → String
  | .plain rule => rule
  | .structured description nm =>
      if jsFalsyStr description then
        if jsFalsyStr nm then "Risk rule triggered" else nm.getD ""
      else description.getD ""

/-- The fields of the provider raw response body that `checkTransaction`
reads: `{ id, recommendedAction, timestamp, triggered }`.  All are
optional because the provider schema is not controlled by this
service. -/
structure OrcaRawResponse where
  id : Option String
  recommendedAction : Option String
  timestamp : Option Int
  triggered : Option (List TriggeredRule)
deriving DecidableEq, Repr

/-- Outcome of the network call `this.client.post(/v1/transaction, ...)`:
either a parsed response body, or a transport error / timeout /
unparseable body, all of which land in the same `catch` block. -/
inductive ProviderOutcome
  | ok (raw : OrcaRawResponse)
  | failure
deriving DecidableEq, Repr

/-- The `switch (orcaData.recommendedAction)` of `checkTransaction`:
maps the provider raw action string to the canonical decision and the
categorical risk score.  The `default` arm (any unrecognized or missing
value) yields `(ALLOW, 0)`. -/
def mapRecommendedAction : Option String → Decision × Int
  | some "ALLOW" => (ALLOW, 10)
  | some "REVIEW" => (REVIEW, 60)
  | some "BLOCK" => (BLOCK, 95)
  | _ => (ALLOW, 0)

/-- `determineRiskLevel` (orcaService.ts lines 339-343). -/
def determineRiskLevel (riskScore : Int) : RiskLevel :=
  if riskScore ≥ 80 then HIGH
  else if riskScore ≥ 50 then MEDIUM
  else LOW

/-- The `OrcaRiskResponse` shape returned by `checkTransaction`.  The
failure branch of the source omits `recommendedActions`; since the only
consumer (`combineRiskAssessments`) applies `|| []` to it, the absent
field is modelled as `[]`. -/
structure OrcaRiskResponse where
  status : RespStatus
  riskScore : Int
  riskLevel : RiskLevel
  action : Decision
  reasons : List String
  recommendedActions : List String
  checkId : String
  timestamp : Int
deriving DecidableEq, Repr

/-- `checkTransaction` (orcaService.ts lines 159-229): the provider
response normalizer.  On a parsed response it maps `recommendedAction`
through the switch, extracts one reason per `triggered` entry, and falls
back to a generated `check_` id when the provider `id` is falsy.  On
any error (the `catch` block) it returns the fail-open default verdict. -/
def checkTransaction (_transactionData : OrcaTransaction)
    (outcome : ProviderOutcome) (now : Int) (rand : String) :
    OrcaRiskResponse :=
  match outcome with
  | .ok orcaData =>
      let mapped := mapRecommendedAction orcaData.recommendedAction
      let reasons := match orcaData.triggered with
        | some rules => rules.map extractReason
        | none => []
      { status := SUCCESS
        riskScore := mapped.2
        riskLevel := determineRiskLevel mapped.2
        action := mapped.1
        reasons := reasons
        recommendedActions := []
        checkId :=
          if jsFalsyStr orcaData.id then
            "check_" ++ toString now ++ "_" ++ rand
          else orcaData.id.getD ""
        timestamp := jsOrInt orcaData.timestamp now }
  | .failure =>
      { status := ERROR
        riskScore := 0
        riskLevel := LOW
        action := ALLOW
        reasons := ["Orca service error - defaulting to allow"]
        recommendedActions := []
        checkId := "fallback_" ++ toString now
        timestamp := now }

/-- The object literal returned by `combineRiskAssessments` (pre.ts). -/
structure FinalDecision where
  decision : Decision
  riskScore : Int
  riskLevel : RiskLevel
  reasons : List String
  recommendedActions : List String
  checkId : String
  internalCheckId : String
  timestamp : Int
deriving DecidableEq, Repr

/-- The inline score-to-level ternary of `combineRiskAssessments`
(pre.ts line 415): maxRiskScore >= 80 ? HIGH : maxRiskScore >= 50 ?
MEDIUM : LOW. -/
def combineRiskLevel (maxRiskScore : Int) : RiskLevel :=
  if maxRiskScore ≥ 80 then HIGH
  else if maxRiskScore ≥ 50 then MEDIUM
  else LOW

/-- `combineRiskAssessments` (pre.ts lines 403-422): the decision
combiner.  `finalAction = actions[Math.max(indexOf(internal.decision),
indexOf(orca.action))]`, maximum of the scores, re-derived level,
concatenated reasons. -/
def combineRiskAssessments (internal : InternalCheck)
    (orca : OrcaRiskResponse) (now : Int) : FinalDecision :=
  let internalActionIndex := internal.decision.idx
  let orcaActionIndex := orca.action.idx
  let finalAction := decisionOfIdx (max internalActionIndex orcaActionIndex)
  let maxRiskScore := max internal.riskScore orca.riskScore
  { decision := finalAction
    riskScore := maxRiskScore
    riskLevel := combineRiskLevel maxRiskScore
    reasons := internal.reasons ++ orca.reasons
    recommendedActions := orca.recommendedActions
    checkId := orca.checkId
    internalCheckId := internal.checkId
    timestamp := now }

/-- Response of the `POST /transaction/check` route handler (pre.ts):
the 400 validation error, the short-circuit response carrying the
internal check, or the combined final decision. -/
inductive CheckResponse
  | invalidRequest
  | blockedInternal (data : InternalCheck)
  | combined (data : FinalDecision)
deriving DecidableEq, Repr

/-- The `POST /transaction/check` handler (pre.ts lines 179-232):
validation of the three required fields (JavaScript falsy test: the
empty string for the ids, 0 for the amount), internal checks, the
short-circuit `if (internalCheck.decision === BLOCK)`, then the
provider call and the combination. -/
def transactionCheck (limits : Limits) (transactionData : OrcaTransaction)
    (outcome : ProviderOutcome) (now : Int) (rand : String) :
    CheckResponse :=
  if transactionData.transactionId = "" ∨ transactionData.userId = "" ∨
      transactionData.amount = 0 then
    .invalidRequest
  else
    let internalCheck := performInternalChecks limits transactionData now rand
    if internalCheck.decision = BLOCK then
      .blockedInternal internalCheck
    else
      let orcaResult := checkTransaction transactionData outcome now rand
      .combined (combineRiskAssessments internalCheck orcaResult now)

/-- One entry of the per-user `userTransactionCache` read by
`checkTransactionLimits`. -/
structure CachedTx where
  amount : Int
  timestamp : Int
deriving DecidableEq, Repr

/-- The fields of the `LimitsCheckRequest` body that
`checkTransactionLimits` reads. -/
structure LimitsCheckRequest where
  userId : String
  amount : Int
deriving DecidableEq, Repr

/-- The `limits` sub-object of the `checkTransactionLimits` result. -/
structure LimitsInfo where
  dailyLimit : Int
  dailyUsed : Int
  dailyRemaining : Int
  transactionLimit : Int
  transactionCount : Nat
  transactionCountLimit : Nat
deriving DecidableEq, Repr

/-- The object literal returned by `checkTransactionLimits`. -/
structure LimitsCheckResult where
  withinLimits : Bool
  limits : LimitsInfo
  decision : Decision
  timestamp : Int
deriving DecidableEq, Repr

/-- `checkTransactionLimits` (pre.ts lines 424-455): filters the user
cached transactions to those with timestamp at or after the start of the
current day (`today`, passed explicitly here), sums their amounts, and
compares against the configured daily, count and single-transaction
ceilings.  `decision` is withinLimits ? ALLOW : BLOCK. -/
def checkTransactionLimits (limits : Limits)
    (userTransactions : List CachedTx) (today : Int)
    (limitsData : LimitsCheckRequest) (now : Int) : LimitsCheckResult :=
  let dailyTransactions :=
    userTransactions.filter (fun tx => tx.timestamp ≥ today)
  let dailyAmount := (dailyTransactions.map (fun tx => tx.amount)).sum
  let newDailyAmount := dailyAmount + limitsData.amount
  let withinLimits :=
    decide (newDailyAmount ≤ limits.dailyTransactionLimit ∧
      dailyTransactions.length < limits.hourlyTransactionCount ∧
      limitsData.amount ≤ limits.singleTransactionLimit)
  { withinLimits := withinLimits
    limits :=
      { dailyLimit := limits.dailyTransactionLimit
        dailyUsed := dailyAmount
        dailyRemaining := limits.dailyTransactionLimit - dailyAmount
        transactionLimit := limits.singleTransactionLimit
        transactionCount := dailyTransactions.length
        transactionCountLimit := limits.hourlyTransactionCount }
    decision := if withinLimits then ALLOW else BLOCK
    timestamp := now }

/-- Spec-side maximum of two decisions in the restrictiveness order
ALLOW < REVIEW < BLOCK. -/
def Decision.dmax : Decision → Decision → Decision
  | BLOCK, _ => BLOCK
  | _, BLOCK => BLOCK
  | REVIEW, _ => REVIEW
  | _, REVIEW => REVIEW
  | ALLOW, ALLOW => ALLOW

/-- Whether the first list of characters occurs at the front of the
second. -/
def charsMatchFront : List Char → List Char → Bool
  | [], _ => true
  | _ :: _, [] => false
  | a :: as, b :: bs => a == b && charsMatchFront as bs

/-- Whether the first list of characters occurs as a contiguous segment
of the second. -/
def charsContainSub (pat : List Char) : List Char → Bool
  | [] => charsMatchFront pat []
  | c :: cs => charsMatchFront pat (c :: cs) || charsContainSub pat cs

/-- Spec-side reading of a reason string that mentions unavailability:
the string contains the substring "unavailable". -/
def mentionsUnavailability (s : String) : Bool :=
  charsContainSub "unavailable".data s.data

/-- Shared helper: indexing the decision array at the maximum of the two
indices computes the maximum in the ALLOW < REVIEW < BLOCK order. -/
theorem decisionOfIdx_max (d1 d2 : Decision) :
    decisionOfIdx (max d1.idx d2.idx) = d1.dmax d2 := by
  cases d1 <;> cases d2 <;> rfl

/-- Shared helper: BLOCK absorbs on the left of the decision maximum. -/
theorem Decision.dmax_block_left (d : Decision) : BLOCK.dmax d = BLOCK := by
  cases d <;> rfl

/-- C1 (amended): on a failed, timed-out or unparseable provider call
(the `catch` block of `checkTransaction`), the normalizer does not
propagate the error: it returns decision ALLOW, riskScore 0, exactly one
reason string — the fixed provider-error message — and a freshly
generated fallback checkId prefixed with "fallback_". -/
theorem checkTransaction_failure_fail_open
    (transactionData : OrcaTransaction) (now : Int) (rand : String) :
    (checkTransaction transactionData .failure now rand).action = ALLOW ∧
    (checkTransaction transactionData .failure now rand).riskScore = 0 ∧
    (checkTransaction transactionData .failure now rand).reasons =
      ["Orca service error - defaulting to allow"] ∧
    (checkTransaction transactionData .failure now rand).checkId =
      "fallback_" ++ toString now :=
  ⟨rfl, rfl, rfl, rfl⟩

/-- C1 counterexample: on provider failure the verdict carries exactly
one reason, but that reason is the string
"Orca service error - defaulting to allow", which does not mention
unavailability (it does not contain the substring "unavailable"), so
the claim as stated fails at this input. -/
theorem checkTransaction_failure_reason_lacks_unavailable :
    (checkTransaction ⟨"txn_c1", "user_c1", 1000, "KES", "kotanipay"⟩
        .failure 1700000000000 "r").reasons =
      ["Orca service error - defaulting to allow"] ∧
    mentionsUnavailability "Orca service error - defaulting to allow" =
      false := by
  constructor
  · rfl
  · rfl

/-- C2: the claim fails on the code, and the spec is the recorded
intent: at amount 60000, strictly above the default single-transaction
ceiling 50000, with provider "voucher", `performInternalChecks` returns
decision REVIEW, not BLOCK — the voucher rule unconditionally overwrites
the running decision and downgrades the BLOCK set by the amount rule. -/
theorem performInternalChecks_voucher_overrides_block :
    (60000 : Int) > defaultLimits.singleTransactionLimit ∧
    (performInternalChecks defaultLimits
        ⟨"txn_c2", "user_c2", 60000, "ZAR", "voucher"⟩ 0 "r").decision =
      REVIEW := by
  constructor
  · decide
  · rfl

/-- C3: the escalation invariant fails on the code: at amount 60000 in
USD, the amount rule fires (its reason is recorded and the running
decision becomes BLOCK), yet the later USD rule overwrites the decision
back down to REVIEW, so the returned decision is less restrictive than
one established earlier. -/
theorem performInternalChecks_usd_downgrades_block :
    (performInternalChecks defaultLimits
        ⟨"txn_c3", "user_c3", 60000, "USD", "hifi"⟩ 0 "r").reasons =
      ["Amount exceeds single transaction limit",
        "High USD transaction requires review"] ∧
    (performInternalChecks defaultLimits
        ⟨"txn_c3", "user_c3", 60000, "USD", "hifi"⟩ 0 "r").decision =
      REVIEW := by
  constructor
  · rfl
  · rfl

/-- C4 (amended): normalizing a provider response whose raw
`recommendedAction` is exactly the string "REVIEW" yields decision
REVIEW with riskScore 60 (the switch in `checkTransaction` assigns 60,
not 75, to the REVIEW arm). -/
theorem checkTransaction_review_normalization
    (transactionData : OrcaTransaction) (raw : OrcaRawResponse)
    (now : Int) (rand : String)
    (h : raw.recommendedAction = some "REVIEW") :
    (checkTransaction transactionData (.ok raw) now rand).action =
      REVIEW ∧
    (checkTransaction transactionData (.ok raw) now rand).riskScore =
      60 := by
  constructor
  · show (mapRecommendedAction raw.recommendedAction).1 = REVIEW
    rw [h]
    decide
  · show (mapRecommendedAction raw.recommendedAction).2 = 60
    rw [h]
    decide

/-- C4 witness: a concrete provider response with recommendedAction
"REVIEW" normalizes to decision REVIEW with riskScore 60. -/
theorem checkTransaction_review_normalization_witness :
    (OrcaRawResponse.mk (some "orca_w4") (some "REVIEW") (some 1)
        none).recommendedAction = some "REVIEW" ∧
    ((checkTransaction ⟨"txn_w4", "user_w4", 100, "KES", "hifi"⟩
        (.ok ⟨some "orca_w4", some "REVIEW", some 1, none⟩) 0 "r").action =
      REVIEW ∧
    (checkTransaction ⟨"txn_w4", "user_w4", 100, "KES", "hifi"⟩
        (.ok ⟨some "orca_w4", some "REVIEW", some 1, none⟩) 0 "r").riskScore =
      60) :=
  ⟨rfl, checkTransaction_review_normalization
    ⟨"txn_w4", "user_w4", 100, "KES", "hifi"⟩
    ⟨some "orca_w4", some "REVIEW", some 1, none⟩ 0 "r" rfl⟩

/-- C4 counterexample: at a concrete provider response with
recommendedAction "REVIEW", the normalized verdict has riskScore 60,
so the claimed conjunction (decision REVIEW and riskScore 75) is
false. -/
theorem checkTransaction_review_score_is_60_not_75 :
    (checkTransaction ⟨"txn_c4", "user_c4", 100, "KES", "hifi"⟩
        (.ok ⟨some "orca_c4", some "REVIEW", some 5, none⟩) 0 "r").action =
      REVIEW ∧
    ¬ ((checkTransaction ⟨"txn_c4", "user_c4", 100, "KES", "hifi"⟩
        (.ok ⟨some "orca_c4", some "REVIEW", some 5, none⟩) 0 "r").action =
      REVIEW ∧
      (checkTransaction ⟨"txn_c4", "user_c4", 100, "KES", "hifi"⟩
        (.ok ⟨some "orca_c4", some "REVIEW", some 5, none⟩) 0 "r").riskScore =
      75) := by
  constructor
  · rfl
  · intro hcl
    have h60 : (checkTransaction ⟨"txn_c4", "user_c4", 100, "KES", "hifi"⟩
        (.ok ⟨some "orca_c4", some "REVIEW", some 5, none⟩) 0 "r").riskScore =
        60 := rfl
    rw [h60] at hcl
    exact absurd hcl.2 (by decide)

/-- C5: for every pair of verdicts, `combineRiskAssessments` returns the
maximum of the two decisions in the ALLOW < REVIEW < BLOCK order, the
maximum of the two risk scores, a risk level re-derived from that
combined score, and the local reason list followed by the provider
reason list with both internal orders preserved and no deduplication. -/
theorem combineRiskAssessments_components (internal : InternalCheck)
    (orca : OrcaRiskResponse) (now : Int) :
    (combineRiskAssessments internal orca now).decision =
      internal.decision.dmax orca.action ∧
    (combineRiskAssessments internal orca now).riskScore =
      max internal.riskScore orca.riskScore ∧
    (combineRiskAssessments internal orca now).riskLevel =
      combineRiskLevel (max internal.riskScore orca.riskScore) ∧
    (combineRiskAssessments internal orca now).reasons =
      internal.reasons ++ orca.reasons :=
  ⟨decisionOfIdx_max internal.decision orca.action, rfl, rfl, rfl⟩

/-- C6: swapping the decision, score and reason contents of the two
verdicts leaves the combined decision and the combined riskScore
unchanged, but the combination is not commutative on reasons: at a
concrete pair of verdicts with distinct non-empty reason lists, the
swap reverses the order of the combined reason list. -/
theorem combine_swap_agreement_and_reason_asymmetry :
    (∀ (d1 d2 : Decision) (s1 s2 : Int) (r1 r2 : List String)
        (stI : RespStatus) (lI : RiskLevel) (cI : String) (tI : Int)
        (stO : RespStatus) (lO : RiskLevel) (raO : List String)
        (cO : String) (tO now : Int),
      (combineRiskAssessments
          { status := stI, decision := d1, riskScore := s1, riskLevel := lI,
            reasons := r1, checkId := cI, timestamp := tI }
          { status := stO, riskScore := s2, riskLevel := lO, action := d2,
            reasons := r2, recommendedActions := raO, checkId := cO,
            timestamp := tO } now).decision =
        (combineRiskAssessments
          { status := stI, decision := d2, riskScore := s2, riskLevel := lI,
            reasons := r2, checkId := cI, timestamp := tI }
          { status := stO, riskScore := s1, riskLevel := lO, action := d1,
            reasons := r1, recommendedActions := raO, checkId := cO,
            timestamp := tO } now).decision ∧
      (combineRiskAssessments
          { status := stI, decision := d1, riskScore := s1, riskLevel := lI,
            reasons := r1, checkId := cI, timestamp := tI }
          { status := stO, riskScore := s2, riskLevel := lO, action := d2,
            reasons := r2, recommendedActions := raO, checkId := cO,
            timestamp := tO } now).riskScore =
        (combineRiskAssessments
          { status := stI, decision := d2, riskScore := s2, riskLevel := lI,
            reasons := r2, checkId := cI, timestamp := tI }
          { status := stO, riskScore := s1, riskLevel := lO, action := d1,
            reasons := r1, recommendedActions := raO, checkId := cO,
            timestamp := tO } now).riskScore) ∧
    (combineRiskAssessments
        { status := SUCCESS, decision := ALLOW, riskScore := 25,
          riskLevel := LOW, reasons := ["Local rule reason"],
          checkId := "internal_1", timestamp := 0 }
        { status := SUCCESS, riskScore := 10, riskLevel := LOW,
          action := ALLOW, reasons := ["Provider rule reason"],
          recommendedActions := [], checkId := "check_1",
          timestamp := 0 } 0).reasons ≠
      (combineRiskAssessments
        { status := SUCCESS, decision := ALLOW, riskScore := 10,
          riskLevel := LOW, reasons := ["Provider rule reason"],
          checkId := "internal_1", timestamp := 0 }
        { status := SUCCESS, riskScore := 25, riskLevel := LOW,
          action := ALLOW, reasons := ["Local rule reason"],
          recommendedActions := [], checkId := "check_1",
          timestamp := 0 } 0).reasons := by
  constructor
  · intro d1 d2 s1 s2 r1 r2 stI lI cI tI stO lO raO cO tO now
    constructor
    · show decisionOfIdx (max d1.idx d2.idx) =
        decisionOfIdx (max d2.idx d1.idx)
      rw [Nat.max_comm]
    · show max s1 s2 = max s2 s1
      exact max_comm s1 s2
  · decide

/-- C7: when the local rule evaluator yields BLOCK on a request that
passes the required-field validation, the transaction-check handler
returns the internal verdict without consulting the provider (the
response is independent of the provider outcome), and combining that
internal verdict with any provider verdict would have produced the same
decision, BLOCK. -/
theorem transactionCheck_short_circuit (limits : Limits)
    (transactionData : OrcaTransaction) (o1 o2 : ProviderOutcome)
    (orcaResult : OrcaRiskResponse) (now : Int) (rand : String)
    (h1 : transactionData.transactionId ≠ "")
    (h2 : transactionData.userId ≠ "")
    (h3 : transactionData.amount ≠ 0)
    (hb : (performInternalChecks limits transactionData now rand).decision =
      BLOCK) :
    transactionCheck limits transactionData o1 now rand =
      transactionCheck limits transactionData o2 now rand ∧
    transactionCheck limits transactionData o1 now rand =
      .blockedInternal (performInternalChecks limits transactionData now
        rand) ∧
    (combineRiskAssessments
        (performInternalChecks limits transactionData now rand)
        orcaResult now).decision = BLOCK := by
  have hv : ¬(transactionData.transactionId = "" ∨
      transactionData.userId = "" ∨ transactionData.amount = 0) := by
    push_neg
    exact ⟨h1, h2, h3⟩
  have hstep : ∀ o : ProviderOutcome,
      transactionCheck limits transactionData o now rand =
        .blockedInternal (performInternalChecks limits transactionData now
          rand) := by
    intro o
    show (if transactionData.transactionId = "" ∨
        transactionData.userId = "" ∨ transactionData.amount = 0 then
        CheckResponse.invalidRequest
      else if (performInternalChecks limits transactionData now
          rand).decision = BLOCK then
        CheckResponse.blockedInternal
          (performInternalChecks limits transactionData now rand)
      else
        CheckResponse.combined (combineRiskAssessments
          (performInternalChecks limits transactionData now rand)
          (checkTransaction transactionData o now rand) now)) =
      CheckResponse.blockedInternal
        (performInternalChecks limits transactionData now rand)
    rw [if_neg hv, if_pos hb]
  refine ⟨(hstep o1).trans (hstep o2).symm, hstep o1, ?_⟩
  calc (combineRiskAssessments
        (performInternalChecks limits transactionData now rand)
        orcaResult now).decision
      = ((performInternalChecks limits transactionData now
          rand).decision).dmax orcaResult.action :=
        decisionOfIdx_max _ _
    _ = BLOCK.dmax orcaResult.action := by rw [hb]
    _ = BLOCK := Decision.dmax_block_left _

/-- C7 witness: a concrete request at amount 60000 over the default
ceiling, with a provider outcome on each side, short-circuits to the
BLOCK internal verdict. -/
theorem transactionCheck_short_circuit_witness :
    ("txn_w7" : String) ≠ "" ∧ ("user_w7" : String) ≠ "" ∧
    (60000 : Int) ≠ 0 ∧
    (performInternalChecks defaultLimits
        ⟨"txn_w7", "user_w7", 60000, "KES", "kotanipay"⟩ 5 "r").decision =
      BLOCK ∧
    (transactionCheck defaultLimits
        ⟨"txn_w7", "user_w7", 60000, "KES", "kotanipay"⟩ .failure 5 "r" =
      transactionCheck defaultLimits
        ⟨"txn_w7", "user_w7", 60000, "KES", "kotanipay"⟩
        (.ok ⟨none, none, none, none⟩) 5 "r" ∧
    transactionCheck defaultLimits
        ⟨"txn_w7", "user_w7", 60000, "KES", "kotanipay"⟩ .failure 5 "r" =
      .blockedInternal (performInternalChecks defaultLimits
        ⟨"txn_w7", "user_w7", 60000, "KES", "kotanipay"⟩ 5 "r") ∧
    (combineRiskAssessments
        (performInternalChecks defaultLimits
          ⟨"txn_w7", "user_w7", 60000, "KES", "kotanipay"⟩ 5 "r")
        { status := SUCCESS, riskScore := 10, riskLevel := LOW,
          action := ALLOW, reasons := [], recommendedActions := [],
          checkId := "check_w7", timestamp := 5 } 5).decision = BLOCK) :=
  ⟨by decide, by decide, by decide, by decide,
    transactionCheck_short_circuit defaultLimits
      ⟨"txn_w7", "user_w7", 60000, "KES", "kotanipay"⟩ .failure
      (.ok ⟨none, none, none, none⟩)
      { status := SUCCESS, riskScore := 10, riskLevel := LOW,
        action := ALLOW, reasons := [], recommendedActions := [],
        checkId := "check_w7", timestamp := 5 } 5 "r"
      (by decide) (by decide) (by decide) (by decide)⟩

/-- Helper for C8: an if-then-else between ALLOW and BLOCK is ALLOW
exactly on true, BLOCK exactly on false, and never REVIEW. -/
theorem ite_allow_block_cases (b : Bool) :
    ((if b then ALLOW else BLOCK) = ALLOW ↔ b = true) ∧
    ((if b then ALLOW else BLOCK) = BLOCK ↔ b = false) ∧
    (if b then ALLOW else BLOCK) ≠ REVIEW := by
  cases b <;> simp

/-- C8: `checkTransactionLimits` returns decision ALLOW exactly when its
withinLimits flag is true, BLOCK exactly when the flag is false, and
never returns REVIEW. -/
theorem checkTransactionLimits_binary (limits : Limits)
    (userTransactions : List CachedTx) (today : Int)
    (limitsData : LimitsCheckRequest) (now : Int) :
    ((checkTransactionLimits limits userTransactions today limitsData
        now).decision = ALLOW ↔
      (checkTransactionLimits limits userTransactions today limitsData
        now).withinLimits = true) ∧
    ((checkTransactionLimits limits userTransactions today limitsData
        now).decision = BLOCK ↔
      (checkTransactionLimits limits userTransactions today limitsData
        now).withinLimits = false) ∧
    (checkTransactionLimits limits userTransactions today limitsData
        now).decision ≠ REVIEW :=
  ite_allow_block_cases
    ((checkTransactionLimits limits userTransactions today limitsData
      now).withinLimits)

/-- C9: the inline score-to-level ternary of `combineRiskAssessments`
and `OrcaService.determineRiskLevel` are extensionally equal: for every
risk score they return the same risk level. -/
theorem combineRiskLevel_eq_determineRiskLevel (riskScore : Int) :
    combineRiskLevel riskScore = determineRiskLevel riskScore := rfl

/-- C10: for a structured triggered-rule entry whose description field
is absent or falsy (for example the empty string), the extracted reason
falls through to the name field, and to the generic fallback string
when the name is also falsy; in particular the extracted reason is
never the empty string, so an empty-string description is never used
verbatim. -/
theorem extractReason_falsy_description (d nm : Option String)
    (hd : jsFalsyStr d = true) :
    extractReason (.structured d nm) =
      (if jsFalsyStr nm then "Risk rule triggered" else nm.getD "") ∧
    extractReason (.structured d nm) ≠ "" := by
  have he : extractReason (.structured d nm) =
      (if jsFalsyStr nm then "Risk rule triggered" else nm.getD "") := by
    show (if jsFalsyStr d then
        (if jsFalsyStr nm then "Risk rule triggered" else nm.getD "")
      else d.getD "") = _
    rw [hd]
    simp
  refine ⟨he, ?_⟩
  rw [he]
  cases nm with
  | none => simp [jsFalsyStr]
  | some s =>
      by_cases hs : s = ""
      · subst hs
        simp [jsFalsyStr]
      · simp [jsFalsyStr, hs]

/-- C10 witness: an entry with an empty-string description and no name
extracts to the generic fallback reason. -/
theorem extractReason_falsy_description_witness :
    jsFalsyStr (some "") = true ∧
    (extractReason (.structured (some "") none) =
      (if jsFalsyStr (none : Option String) then "Risk rule triggered"
       else (none : Option String).getD "") ∧
    extractReason (.structured (some "") none) ≠ "") :=
  ⟨by decide, extractReason_falsy_description (some "") none (by decide)⟩
